import Mathlib

/-!
Verification development for the atomiq-droid-suite backend.

The definitions below are a shallow embedding, in Lean, of the Python
sources under backend/: the path sandbox and block materializer of
backend/agent/crewai_pipeline.py, the job registry callback of
backend/main.py, the pipeline control flow of backend/agent/orchestrator.py,
the archiver of backend/agent/utils/zipper.py and the source scanner of
backend/agent/analyzers/java_parser.py.  Paths are POSIX style: the
deployment joins everything onto os.getcwd(), so every root handled here is
absolute and os.sep is the forward slash.  File systems are modelled as
association lists from absolute path strings to file contents; writing to an
existing path replaces the entry in place, which mirrors overwriting a file
on disk.  External collaborators (git clone, the CrewAI/LLM call) are
modelled as oracle values describing their outcome, exactly at the interface
the orchestrator sees.
-/

/-! ## Small string and list helpers (Python semantics) -/

/-- Characters treated as whitespace by Python str.strip and by the regex
class backslash-s (space, tab, newline, carriage return, vertical tab,
form feed). -/
def pyIsWS (c : Char) : Bool :=
  c = ' ' || c = '\t' || c = '\n' || c = '\r' || c = '\x0b' || c = '\x0c'

/-- Does the second list start with the first one? -/
def listStarts : List Char → List Char → Bool
  | [], _ => true
  | _ :: _, [] => false
  | p :: ps, c :: cs => p = c && listStarts ps cs

/-- Does the string s start with the string pre? -/
def strStarts (pre s : String) : Bool := listStarts pre.toList s.toList

/-- Does the string s end with the string suf? -/
def strEnds (suf s : String) : Bool := listStarts suf.toList.reverse s.toList.reverse

/-- Does the needle occur as a contiguous segment of the haystack?  Models
the Python `in` test on strings. -/
def hasSub (needle : List Char) : List Char → Bool
  | [] => needle.isEmpty
  | s@(_ :: t) => listStarts needle s || hasSub needle t

/-- Python str.strip with no argument: drop whitespace from both ends. -/
def pyStrip (s : String) : String :=
  String.mk (((s.toList.dropWhile pyIsWS).reverse.dropWhile pyIsWS).reverse)

/-- Python str.lower restricted to the ASCII range the backend handles. -/
def pyLower (s : String) : String := String.mk (s.toList.map Char.toLower)

/-- Python str.replace for a single-character pattern, which is the only
shape the backend uses (backslash to slash, dot to slash). -/
def charReplace (a b : Char) (s : String) : String :=
  String.mk (s.toList.map (fun c => if c = a then b else c))

/-- Split a character list on the slash character. -/
def splitSlash : List Char → List (List Char)
  | [] => [[]]
  | c :: t =>
    if c = '/' then [] :: splitSlash t
    else
      match splitSlash t with
      | [] => [[c]]
      | s :: rest => (c :: s) :: rest

/-- Join a list of strings with a separator. -/
def joinSep (sep : String) : List String → String
  | [] => ""
  | [x] => x
  | x :: y :: xs => x ++ sep ++ joinSep sep (y :: xs)

/-- Python lstrip with the two path separator characters, as in
rel.lstrip of the slash-backslash pair inside the path sandbox. -/
def lstripSlashes (s : String) : String :=
  String.mk (s.toList.dropWhile (fun c => c = '/' || c = '\\'))

/-! ## Path model (posixpath on absolute roots)

os.path.join and os.path.abspath from the CPython posixpath module,
restricted to the absolute roots the backend actually passes (all roots
derive from os.getcwd()).  For an absolute argument abspath reduces to
normpath: split on the separator, drop empty and dot components, resolve
dot-dot against the stack (dot-dot at the filesystem root is dropped). -/

/-- posixpath.join on two components. -/
def pathJoin (a b : String) : String :=
  if strStarts "/" b then b
  else if a = "" || strEnds "/" a then a ++ b
  else a ++ "/" ++ b

/-- posixpath.join folded over a list of components, as in the calls of
os.path.join with several arguments. -/
def joinAll (base : String) (parts : List String) : String :=
  parts.foldl pathJoin base

/-- Resolve dot and dot-dot components of an absolute path. -/
def normParts (l : List String) : List String :=
  l.foldl
    (fun acc c =>
      if c = "." then acc
      else if c = ".." then acc.dropLast
      else acc ++ [c]) []

/-- os.path.abspath of an absolute POSIX path: normpath. -/
def absNorm (p : String) : String :=
  "/" ++ joinSep "/" (normParts (((splitSlash p.toList).map String.mk).filter (fun c => c ≠ "")))

/-! ## Path sandbox: safe_join from backend/agent/crewai_pipeline.py -/

/-- Embedding of the private safe-join helper of crewai_pipeline.py:
strip the relative path, drop leading slashes and backslashes, join with
the root, resolve to an absolute path, and accept only when the result is
the root itself or lies strictly below the root with a separator boundary.
The Python code raises ValueError with the message used here; the
embedding returns it through Except.error. -/
def safe_join (root rel : String) : Except String String :=
  let rel2 := lstripSlashes (pyStrip rel)
  let full := absNorm (pathJoin root rel2)
  let rootAbs := absNorm root
  if full = rootAbs || strStarts (rootAbs ++ "/") full then Except.ok full
  else Except.error ("Unsafe path refused: " ++ rel2)

/-! ## File-system model -/

/-- A file system is an association list from absolute paths to contents.
The first matching entry wins on lookup; writes replace in place. -/
abbrev Fs := List (String × String)

/-- Look up the content stored at a path. -/
def fsGet : Fs → String → Option String
  | [], _ => none
  | (p, c) :: rest, q => if p = q then some c else fsGet rest q

/-- Write a file: overwrite the existing entry in place when the path is
present (paths are unique in every file system built here), append a
fresh entry otherwise. -/
def fsWrite : Fs → String → String → Fs
  | [], p, c => [(p, c)]
  | (p1, c1) :: rest, p, c =>
    if p1 = p then (p, c) :: rest else (p1, c1) :: fsWrite rest p c

/-! ## Block grammar scanners

The two extraction patterns FILE_BLOCK_RE_A and FILE_BLOCK_RE_B of
crewai_pipeline.py, embedded as direct scanners over character lists.
Pattern A (dotall):  the marker three-angle FILE: then a path of
non-greater-than characters, the marker close, optional whitespace, a
backtick fence with an optional language word, a lazy body up to the next
fence, then a lazy gap up to the END-FILE marker.  Pattern B (multiline,
dotall): a line starting with FILE:, optional whitespace, a path running
to the end of the line, a fence line with an optional language word, a
lazy body, and a closing fence on its own line.  The scanners reproduce
the leftmost, non-overlapping semantics of re.finditer, with greedy runs
for the character classes (no observable backtracking exists for these
patterns: the fence and marker literals cannot occur inside the greedy
whitespace or word runs, and the lazy bodies absorb arbitrary text). -/

/-- Word characters of the regex class: ASCII letters, digits, underscore,
plus and minus (the language tag after a fence). -/
def isWordPB (c : Char) : Bool := c.isAlphanum || c = '_' || c = '+' || c = '-'

/-- Lazy search for the first three-backtick fence; returns the text
before it and the text after it. -/
def findFence : List Char → Option (List Char × List Char)
  | [] => none
  | '`' :: '`' :: '`' :: t => some ([], t)
  | c :: t =>
    match findFence t with
    | none => none
    | some (b, r) => some (c :: b, r)

/-- Lazy search for the first occurrence of a marker; returns the text
after it. -/
def findAfter (pat : List Char) : List Char → Option (List Char)
  | [] => none
  | s@(_ :: t) => if listStarts pat s then some (s.drop pat.length) else findAfter pat t

/-- Try pattern A at the head of the input; on success return the path
group, the body group and the rest of the input after the END-FILE
marker. -/
def matchA (s : List Char) : Option (List Char × List Char × List Char) :=
  if listStarts "<<<FILE:".toList s then
    let r1 := s.drop 8
    let path := r1.takeWhile (fun c => c ≠ '>')
    if path.isEmpty then none
    else
      let r2 := r1.drop path.length
      if listStarts ">>>".toList r2 then
        let r3 := (r2.drop 3).dropWhile pyIsWS
        if listStarts "```".toList r3 then
          let r4 := ((r3.drop 3).dropWhile isWordPB).dropWhile pyIsWS
          match findFence r4 with
          | none => none
          | some (body, afterFence) =>
            match findAfter "<<<END_FILE>>>".toList afterFence with
            | none => none
            | some rest => some (path, body, rest)
        else none
      else none
  else none

/-- Scan for all pattern-A matches, leftmost and non-overlapping; the
fuel argument bounds the recursion by the input length. -/
def scanA : Nat → List Char → List (List Char × List Char)
  | 0, _ => []
  | _ + 1, [] => []
  | fuel + 1, s@(_ :: t) =>
    match matchA s with
    | some (p, b, rest) => (p, b) :: scanA fuel rest
    | none => scanA fuel t

/-- All pattern-A matches of a string. -/
def findAllA (s : List Char) : List (List Char × List Char) := scanA s.length s

/-- Lazy search for a newline followed by a closing fence; returns the
body before the newline and the text after the fence. -/
def findCloseB : List Char → Option (List Char × List Char)
  | [] => none
  | '\n' :: '`' :: '`' :: '`' :: t => some ([], t)
  | c :: t =>
    match findCloseB t with
    | none => none
    | some (b, r) => some (c :: b, r)

/-- Pattern B after the whitespace run: a path of non-newline characters
to the end of the line, a fence with an optional language word and its
newline, then the lazy body up to a closing fence line. -/
def matchBCore (r : List Char) : Option (List Char × List Char × List Char) :=
  let path := r.takeWhile (fun c => c ≠ '\n')
  if path.isEmpty then none
  else
    match r.drop path.length with
    | '\n' :: r2 =>
      if listStarts "```".toList r2 then
        match (r2.drop 3).dropWhile isWordPB with
        | '\n' :: r4 =>
          match findCloseB r4 with
          | some (body, rest) => some (path, body, rest)
          | none => none
        | _ => none
      else none
    | _ => none

/-- Backtracking over the length of the greedy whitespace run after the
FILE: marker of pattern B: the regex tries the maximal run first and
gives characters back one by one. -/
def matchBTry : Nat → List Char → Nat → Option (List Char × List Char × List Char)
  | 0, _, _ => none
  | fuel + 1, r, k =>
    match matchBCore (r.drop k) with
    | some res => some res
    | none => if k = 0 then none else matchBTry fuel r (k - 1)

/-- Try pattern B at the head of the input (the caller guarantees the
position is a line start). -/
def matchB (s : List Char) : Option (List Char × List Char × List Char) :=
  if listStarts "FILE:".toList s then
    let r := s.drop 5
    let wsMax := (r.takeWhile pyIsWS).length
    matchBTry (wsMax + 1) r wsMax
  else none

/-- Scan for all pattern-B matches.  The boolean tracks whether the
current position is a line start, which is where the multiline anchor
matches; after a match the scan resumes right after the closing fence,
which is never a line start because the match ends with a backtick. -/
def scanB : Nat → Bool → List Char → List (List Char × List Char)
  | 0, _, _ => []
  | _ + 1, _, [] => []
  | fuel + 1, atLineStart, s@(c :: t) =>
    if atLineStart then
      match matchB s with
      | some (p, b, rest) => (p, b) :: scanB fuel false rest
      | none => scanB fuel (c = '\n') t
    else scanB fuel (c = '\n') t

/-- All pattern-B matches of a string (position zero is a line start). -/
def findAllB (s : List Char) : List (List Char × List Char) := scanB s.length true s

/-! ## Block materializer from backend/agent/crewai_pipeline.py -/

/-- The allow-listed output roots of crewai_pipeline.py. -/
def ALLOWED_ROOTS : List String := ["unit-tests", "bdd-tests"]

/-- Replace carriage-return-newline pairs and lone carriage returns by
newlines, left to right. -/
def normNewlines : List Char → List Char
  | [] => []
  | '\r' :: '\n' :: t => '\n' :: normNewlines t
  | '\r' :: t => '\n' :: normNewlines t
  | c :: t => c :: normNewlines t

/-- Embedding of the private body-cleaning helper: normalize newlines,
strip trailing whitespace once, and end with exactly one newline. -/
def clean_body (s : String) : String :=
  String.mk ((((normNewlines s.toList).reverse.dropWhile pyIsWS).reverse) ++ ['\n'])

/-- The allow-list test of the materializer: the declared path equals an
allowed root or starts with that root and a slash. -/
def allowedRel (allowedRoots : List String) (rel : String) : Bool :=
  allowedRoots.any (fun p => rel = p || strStarts (p ++ "/") rel)

/-- Process the extracted blocks in order: discard paths outside the
allow-list silently, clean the body, resolve through the path sandbox and
write.  A sandbox refusal aborts with the writes made so far kept, as the
Python exception would propagate out of the loop. -/
def writeBlocks (outRoot : String) (allowedRoots : List String) :
    List (String × String) → Fs → Nat → Fs × Except String Nat
  | [], fs, n => (fs, Except.ok n)
  | (rel, body) :: rest, fs, n =>
    if allowedRel allowedRoots rel then
      match safe_join outRoot rel with
      | Except.error e => (fs, Except.error e)
      | Except.ok full =>
        writeBlocks outRoot allowedRoots rest (fsWrite fs full (clean_body body)) (n + 1)
    else writeBlocks outRoot allowedRoots rest fs n

/-- Embedding of the private materializer: empty text writes nothing;
otherwise both patterns are run over the whole text (pattern A first),
each declared path is stripped and its backslashes turned into slashes,
and the blocks are processed in order.  Returns the updated file system
and the count of files written, or the sandbox error. -/
def materialize (text : String) (outRoot : String) (allowedRoots : List String)
    (fs : Fs) : Fs × Except String Nat :=
  if text = "" then (fs, Except.ok 0)
  else
    let blocks := (findAllA text.toList ++ findAllB text.toList).map
      (fun pb => (charReplace '\\' '/' (pyStrip (String.mk pb.1)), String.mk pb.2))
    writeBlocks outRoot allowedRoots blocks fs 0

/-! ## run_crewai_generation from backend/agent/crewai_pipeline.py

The provider and credential checks, the raw-output persistence and the
zero-count check are embedded directly.  Everything between the CrewAI
imports and crew.kickoff — agent and task construction, the LLM call — is
an external collaborator: its outcome is the crewRun oracle, an error for
any exception raised there and otherwise the stringified result text.
The prompt and model strings only feed the LLM and do not influence the
control flow embedded here. -/

def run_crewai_generation (provider : String) (keySet : Bool)
    (crewRun : Except String String) (outDir : String) (fs : Fs) :
    Fs × Except String Nat :=
  if pyLower provider ≠ "openai" then
    (fs, Except.error ("Unsupported provider " ++ provider ++ ". Only openai is supported."))
  else if keySet = false then
    (fs, Except.error "OPENAI_API_KEY not set; cannot run CrewAI with OpenAI provider.")
  else
    match crewRun with
    | Except.error e => (fs, Except.error e)
    | Except.ok content =>
      let fs1 := fsWrite fs (pathJoin outDir "_crewai_raw.md") content
      let m := materialize content outDir ALLOWED_ROOTS fs1
      match m.2 with
      | Except.error e => (m.1, Except.error e)
      | Except.ok written =>
        if written = 0 then
          (m.1, Except.error
            "CrewAI produced no file blocks. Check _crewai_raw.md for the raw output.")
        else (m.1, Except.ok written)

/-! ## Job registry from backend/main.py -/

/-- One entry of the append-only job log, as appended by the progress
callback of main.py: the clamped percent, the status label, the message
and a timestamp. -/
structure LogEntry where
  progress : Int
  status : String
  message : String
  ts : String
deriving DecidableEq, Repr

/-- The job record held in the JOBS table of main.py (the fields the
claims are about; work_dir, created_at and flags are constants set at
creation and never touched afterwards). -/
structure Job where
  status : String
  progress : Int
  message : String
  logs : List LogEntry
  artifact : Option String
deriving DecidableEq, Repr

/-- The clamp applied by the progress callback: percent forced into the

range zero to one hundred. -/
def pyClamp (pct : Int) : Int := max 0 (min 100 pct)

/-- Embedding of the private progress callback of main.py, in statement
order: clamp the percent, assign it to the progress field, set the status
to running while below one hundred unless the current status is terminal,
replace the message (falling back to the status label when the message is
empty), and append one log entry carrying a timestamp. -/
def progressUpdate (job : Job) (pct : Int) (status msg ts : String) : Job :=
  let p := pyClamp pct
  { job with
      progress := p
      status :=
        if job.status = "succeeded" ∨ job.status = "failed" then job.status
        else if p < 100 then "running" else job.status
      message := if msg = "" then status else msg
      logs := job.logs ++ [⟨p, status, msg, ts⟩] }

/-! ## Mode normalization (main.py build) and radio semantics
(orchestrator.run_pipeline) -/

/-- The normalization at job creation in main.py: when both flags are
requested the BDD flag is dropped, when neither is requested the unit
flag is set. -/
def buildModeNormalize (u b : Bool) : Bool × Bool :=
  if u && b then (u, false)
  else if !u && !b then (true, b)
  else (u, b)

/-- The radio-semantics derivation inside run_pipeline: each mode is
enabled only without the other, and unit is forced when neither
survives. -/
def radioModes (u b : Bool) : Bool × Bool :=
  let du := u && !b
  let db := b && !u
  if !(du || db) then (true, db) else (du, db)

/-! ## Orchestrator from backend/agent/orchestrator.py

run_pipeline drives clone, scan, generation, fallback scaffold and
packaging.  The external collaborators appear as an oracle record: the
outcome of shallow_clone, the file list of discover_java_files, the
summaries surviving summarize_java, the presence of OPENAI_API_KEY and
the outcome of the CrewAI section.  The progress callback trace is
returned alongside the result so the registry update can be replayed in
order; the callback only appends to the job record, so running it after
the pipeline body is observationally equal to running it inline. -/

/-- One analyzer summary, reduced to the fields _pick_targets reads. -/
structure JSummary where
  pkg : Option String
  cls : Option String

/-- The oracle describing every external collaborator of one pipeline
run. -/
structure ExtWorld where
  cloneOk : Bool
  javaFiles : List String
  summaries : List JSummary
  keySet : Bool
  crewRun : Except String String

/-- Embedding of _pick_targets: keep the class-bearing summaries as
package and class pairs, stopping once the limit is reached (the length
test runs after each summary, appended or not). -/
def pickTargetsGo (acc : List (String × String)) :
    List JSummary → Nat → List (String × String)
  | [], _ => acc
  | s :: rest, limit =>
    let acc2 :=
      match s.cls with
      | some c => acc ++ [(s.pkg.getD "", c)]
      | none => acc
    if limit ≤ acc2.length then acc2 else pickTargetsGo acc2 rest limit

/-- Embedding of the package-to-path helper of the fallback scaffold. -/
def pkgToPath (pkg : String) : String :=
  if pkg = "" then "" else charReplace '.' '/' pkg

/-- The pom written by the fallback scaffold. -/
def scaffoldPom : String :=
  "<project xmlns=\x27http://maven.apache.org/POM/4.0.0\x27><modelVersion>4.0.0</modelVersion><groupId>ai.atomiq</groupId><artifactId>unit-tests</artifactId><version>1.0.0</version></project>"

/-- The sanity test written by the fallback scaffold for a target. -/
def scaffoldJavaContent (pkg cls : String) : String :=
  (if pkg ≠ "" then "package " ++ pkg ++ ";\n\n" else "")
    ++ "import org.junit.jupiter.api.*;\nimport static org.junit.jupiter.api.Assertions.*;\n\n"
    ++ "class " ++ cls ++ "Test \x7b\n  @Test void sanity() \x7b assertTrue(true); \x7d\n\x7d\n"

/-- The feature file written by the fallback scaffold. -/
def scaffoldFeature : String :=
  "Feature: Sample\n  Scenario: Always true\n    Given nothing\n    Then it works\n"

/-- The fallback scaffold of run_pipeline: pick one target, write the pom
and one sanity test when the unit mode is on, write the sample feature
when the BDD mode is on. -/
def scaffold (fs : Fs) (outRoot : String) (doUnit doBdd : Bool)
    (ss : List JSummary) : Fs :=
  let targets :=
    let t := pickTargetsGo [] ss 1
    if t.isEmpty then [("", "Sample")] else t
  let pc := targets.headD ("", "Sample")
  let fs1 :=
    if doUnit then
      let unitRoot := pathJoin outRoot "unit-tests"
      let fs01 := fsWrite fs (pathJoin unitRoot "pom.xml") scaffoldPom
      fsWrite fs01
        (joinAll unitRoot ["src", "test", "java", pkgToPath pc.1, pc.2 ++ "Test.java"])
        (scaffoldJavaContent pc.1 pc.2)
    else fs
  if doBdd then
    fsWrite fs1
      (joinAll (pathJoin outRoot "bdd-tests")
        ["src", "test", "resources", "features", "sample.feature"])
      scaffoldFeature
  else fs1

/-- The build options run_pipeline reads (the fields that shape its
control flow; prompt and model strings only feed the generator). -/
structure BuildOpts where
  jobId : String
  llmProvider : String
  generateUnit : Bool
  generateBdd : Bool

/-- The output root of a job: base directory, work, job id,
generated-tests. -/
def outRootOf (baseDir jobId : String) : String :=
  pathJoin (joinAll baseDir ["work", jobId]) "generated-tests"

/-- The provider argument handed to run_crewai_generation: the configured
provider, defaulting to openai when the option is empty. -/
def providerArg (opts : BuildOpts) : String :=
  if opts.llmProvider = "" then "openai" else opts.llmProvider

/-- The generation stage of run_pipeline: run_crewai_generation applied
to the configured provider, the credential presence and the CrewAI
outcome oracle. -/
def genStage (opts : BuildOpts) (w : ExtWorld) (outRoot : String) (fs : Fs) :
    Fs × Except String Nat :=
  run_crewai_generation (providerArg opts) w.keySet w.crewRun outRoot fs

/-- The packaging tail of run_pipeline: report the packaging checkpoint,
create the archive at the artifacts path, report completion and return
the archive path. -/
def packStage (jobId baseDir : String) (fs : Fs) (tr : List (Int × String)) :
    (Fs × Except String String) × List (Int × String) :=
  let zipPath := pathJoin (pathJoin baseDir "artifacts") (jobId ++ "-tests.zip")
  ((fsWrite fs zipPath "PK-archive", Except.ok zipPath),
    (tr ++ [(85, "Packaging")]) ++ [(100, "Complete")])

/-- Embedding of run_pipeline: report fetch and propagate a clone
failure; report scan and fail on an empty file list; derive the radio
modes; require generation exactly when the credential is present; on a
generation failure either propagate (credential present) or record the
NOTICE file and run the fallback scaffold; finally package.  The second
component is the ordered trace of progress-callback invocations. -/
def run_pipeline (opts : BuildOpts) (w : ExtWorld) (baseDir : String) (fs : Fs) :
    (Fs × Except String String) × List (Int × String) :=
  let tr1 : List (Int × String) := [(5, "Fetching repository")]
  if w.cloneOk = false then ((fs, Except.error "FetchError"), tr1)
  else
    let tr2 := tr1 ++ [(25, "Scanning Java sources")]
    if w.javaFiles.isEmpty then
      ((fs, Except.error "No Java files found in the repository."), tr2)
    else
      let du0 := opts.generateUnit && !opts.generateBdd
      let db := opts.generateBdd && !opts.generateUnit
      let du := if !(du0 || db) then true else du0
      let outRoot := outRootOf baseDir opts.jobId
      let aiRequired := w.keySet
      let tr3 := tr2 ++ [(55, "CrewAI generation")]
      let gen := genStage opts w outRoot fs
      match gen.2 with
      | Except.error e =>
        if aiRequired then ((gen.1, Except.error e), tr3)
        else
          let fs2 := fsWrite gen.1 (pathJoin outRoot "NOTICE.txt")
            ("CrewAI not available or failed; using fallback scaffold.\n" ++ e)
          packStage opts.jobId baseDir (scaffold fs2 outRoot du db w.summaries) tr3
      | Except.ok count =>
        if 0 < count then packStage opts.jobId baseDir gen.1 tr3
        else packStage opts.jobId baseDir (scaffold gen.1 outRoot du db w.summaries) tr3

/-- Embedding of the background worker of main.py around one pipeline
run: the job starts pending, is set running, receives every progress
callback, and is finalized from the pipeline outcome — on success the
artifact is recorded (after the archive file existence test) with
progress one hundred and a closing log entry, on failure the job is
marked failed with the error message and a log entry at the current
progress. -/
def runJob (opts : BuildOpts) (w : ExtWorld) (baseDir ts : String) (fs : Fs) :
    Job × Fs :=
  let job0 : Job :=
    { status := "pending", progress := 0, message := "Queued", logs := [], artifact := none }
  let job1 : Job := { job0 with status := "running" }
  let r := run_pipeline opts w baseDir fs
  let job2 := r.2.foldl (fun j pl => progressUpdate j pl.1 pl.2 "" ts) job1
  match r.1.2 with
  | Except.ok zipPath =>
    if (fsGet r.1.1 zipPath).isSome then
      ({ job2 with
          artifact := some zipPath, progress := 100, status := "succeeded",
          message := "Complete",
          logs := job2.logs ++ [⟨100, "Complete", "Artifact ready", ts⟩] }, r.1.1)
    else
      ({ job2 with
          status := "failed",
          message := "Error: Artifact ZIP not found after pipeline.",
          logs := job2.logs ++
            [⟨job2.progress, "Error", "Artifact ZIP not found after pipeline.", ts⟩] }, r.1.1)
  | Except.error e =>
    ({ job2 with
        status := "failed", message := "Error: " ++ e,
        logs := job2.logs ++ [⟨job2.progress, "Error", e, ts⟩] }, r.1.1)

/-! ## Archiver from backend/agent/utils/zipper.py and scanner from
backend/agent/analyzers/java_parser.py

A directory listing is a chain of entries in scandir order; os.walk
yields each directory top-down, its files first, then recurses into its
subdirectories in listing order.  zip_dir stores every regular file under
the entry name relpath(join(folder, name), src_dir), which for the walked
folders is the path relative to the source directory. -/

/-- A directory listing: empty, a file entry followed by the rest of the
listing, or a subdirectory entry followed by the rest of the listing. -/
inductive DirTree where
  | nil : DirTree
  | fcons (name content : String) (rest : DirTree) : DirTree
  | dcons (name : String) (child : DirTree) (rest : DirTree) : DirTree

/-- Archive entry names contributed by the files of one listing, in
order: the accumulated relative prefix followed by the file name. -/
def zipFiles (pre : String) : DirTree → List String
  | DirTree.nil => []
  | DirTree.fcons n _ rest => (pre ++ n) :: zipFiles pre rest
  | DirTree.dcons _ _ rest => zipFiles pre rest

/-- Archive entry names contributed by the subdirectories of one listing,
walked depth-first in listing order, each subdirectory contributing its
own files first. -/
def zipRec (pre : String) : DirTree → List String
  | DirTree.nil => []
  | DirTree.fcons _ _ rest => zipRec pre rest
  | DirTree.dcons n child rest =>
    (zipFiles (pre ++ n ++ "/") child ++ zipRec (pre ++ n ++ "/") child) ++ zipRec pre rest

/-- Embedding of zip_dir, restricted to the entry names it stores: the
walk of the source directory with each regular file stored under its
path relative to the source directory. -/
def zip_dir_entries (t : DirTree) : List String := zipFiles "" t ++ zipRec "" t

/-- The directory-name substrings that discover_java_files skips. -/
def SKIP_SUBSTRINGS : List String :=
  ["target", "build", "out", "node_modules", "generated-sources"]

/-- The skip test of discover_java_files: some skip substring occurs in
the lowercased absolute path of the directory being walked. -/
def skipDir (base : String) : Bool :=
  SKIP_SUBSTRINGS.any (fun w => hasSub w.toList (pyLower base).toList)

/-- Java files contributed by the files of one listing when the directory
is not skipped: names ending in the java extension, joined onto the
directory path. -/
def discoverHere (base : String) : DirTree → List String
  | DirTree.nil => []
  | DirTree.fcons n _ rest =>
    (if strEnds ".java" n then [pathJoin base n] else []) ++ discoverHere base rest
  | DirTree.dcons _ _ rest => discoverHere base rest

/-- The per-directory step of discover_java_files: a skipped directory
contributes nothing (the walk still descends into its children, whose
paths then also contain the offending substring). -/
def discoverDirFiles (base : String) (t : DirTree) : List String :=
  if skipDir base then [] else discoverHere base t

/-- Java files contributed by the subdirectories of one listing, walked
depth-first in listing order. -/
def discoverRec (base : String) : DirTree → List String
  | DirTree.nil => []
  | DirTree.fcons _ _ rest => discoverRec base rest
  | DirTree.dcons n child rest =>
    (discoverDirFiles (pathJoin base n) child ++ discoverRec (pathJoin base n) child)
      ++ discoverRec base rest

/-- Embedding of discover_java_files: walk the tree from the root,
collecting the java files of every directory that passes the skip
test. -/
def discover_java_files (root : String) (t : DirTree) : List String :=
  discoverDirFiles root t ++ discoverRec root t

/-! ## Concrete fixtures used by the theorems -/

/-- Generator text with one block under the unit-tests root and one block
under a scripts directory outside the allow-list, both in the FILE-line
grammar. -/
def textC3 : String :=
  "FILE: unit-tests/Foo.java\n```java\nint x;\n```\n\nFILE: scripts/evil.sh\n```sh\necho hi\n```\n"

/-- Generator text with two blocks declaring the same target path with
different contents. -/
def textC6 : String :=
  "FILE: unit-tests/A.txt\n```\none\n```\nFILE: unit-tests/A.txt\n```\ntwo\n```\n"

/-- A source directory holding a subdirectory a with the file b.txt, and
the file c.txt at the top. -/
def treeC9 (x y : String) : DirTree :=
  DirTree.dcons "a" (DirTree.fcons "b.txt" y DirTree.nil)
    (DirTree.fcons "c.txt" x DirTree.nil)

/-- A repository whose only java file sits in a directory named layout. -/
def treeLayout : DirTree :=
  DirTree.dcons "layout" (DirTree.fcons "X.java" "" DirTree.nil) DirTree.nil

/-- A repository whose only java file sits in a directory named about. -/
def treeAbout : DirTree :=
  DirTree.dcons "about" (DirTree.fcons "X.java" "" DirTree.nil) DirTree.nil

/-- A concrete option record for witnesses: openai provider, no mode
flags set. -/
def optsW : BuildOpts :=
  { jobId := "j1", llmProvider := "openai", generateUnit := false, generateBdd := false }

/-- A repository whose only java file sits in a clean directory named
src. -/
def treeSrc : DirTree :=
  DirTree.dcons "src" (DirTree.fcons "A.java" "" DirTree.nil) DirTree.nil


theorem fsGet_fsWrite (fs : Fs) (p c q : String) :
    fsGet (fsWrite fs p c) q = if q = p then some c else fsGet fs q := by
  induction fs with
  | nil =>
    by_cases h : q = p
    · simp [fsWrite, fsGet, h]
    · have h' : ¬ p = q := fun hpq => h hpq.symm
      simp [fsWrite, fsGet, h, h']
  | cons e rest ih =>
    obtain ⟨p1, c1⟩ := e
    by_cases h1 : p1 = p
    · subst h1
      by_cases h2 : q = p1
      · simp [fsWrite, fsGet, h2]
      · have h2' : ¬ p1 = q := fun hpq => h2 hpq.symm
        simp [fsWrite, fsGet, h2, h2']
    · by_cases h3 : p1 = q
      · subst h3
        simp [fsWrite, fsGet, h1, ih]
      · simp [fsWrite, fsGet, h1, h3, ih]

theorem fsGet_fsWrite_self (fs : Fs) (p c : String) :
    fsGet (fsWrite fs p c) p = some c := by
  simp [fsGet_fsWrite]

theorem fsWrite_keeps (fs : Fs) (p c q : String)
    (h : (fsGet fs q).isSome = true) :
    (fsGet (fsWrite fs p c) q).isSome = true := by
  rw [fsGet_fsWrite]
  by_cases hq : q = p <;> simp [hq, h]

theorem scaffold_keeps (fs : Fs) (outRoot : String) (du db : Bool)
    (ss : List JSummary) (q : String) (h : (fsGet fs q).isSome = true) :
    (fsGet (scaffold fs outRoot du db ss) q).isSome = true := by
  unfold scaffold
  cases du <;> cases db <;> simp only [Bool.false_eq_true, if_false, if_true, reduceIte] <;>
    repeat first | exact h | apply fsWrite_keeps

theorem progressUpdate_artifact (j : Job) (pct : Int) (st m ts : String) :
    (progressUpdate j pct st m ts).artifact = j.artifact := rfl

theorem progressUpdate_logs (j : Job) (pct : Int) (st m ts : String) :
    (progressUpdate j pct st m ts).logs = j.logs ++ [⟨pyClamp pct, st, m, ts⟩] := rfl

theorem progressUpdate_progress (j : Job) (pct : Int) (st m ts : String) :
    (progressUpdate j pct st m ts).progress = pyClamp pct := rfl

theorem foldl_progressUpdate_artifact (tr : List (Int × String)) (j : Job) (ts : String) :
    ((tr.foldl (fun a pl => progressUpdate a pl.1 pl.2 "" ts) j)).artifact = j.artifact := by
  induction tr generalizing j with
  | nil => rfl
  | cons hd tl ih => rw [List.foldl_cons, ih, progressUpdate_artifact]

theorem foldl_progressUpdate_logsP (tr : List (Int × String)) (j : Job) (ts : String) :
    ((tr.foldl (fun a pl => progressUpdate a pl.1 pl.2 "" ts) j)).logs.map LogEntry.progress
      = j.logs.map LogEntry.progress ++ tr.map (fun pl => pyClamp pl.1) := by
  induction tr generalizing j with
  | nil => simp
  | cons hd tl ih =>
    rw [List.foldl_cons, ih, progressUpdate_logs]
    simp


/-! ## Claim theorems -/

/-- Claim C1, counterexample: the claim asserts that resolving the
absolute path slash-etc-passwd fails with an unsafe-path error, but the
sandbox strips the leading slash first, so the path resolves under the
root and is accepted. -/
theorem safe_join_abs_path_accepted :
    safe_join "/out" "/etc/passwd" = Except.ok "/out/etc/passwd" := by rfl

/-- Claim C1 as amended: resolving a relative path such as a-b.txt
against the root succeeds and stays under the root; dot-dot traversal to
etc-passwd and a sibling-root escape resolving under out2 are refused
with the unsafe-path error; an absolute path such as slash-etc-passwd is
not refused but sanitized: its leading separator is stripped and it
resolves to a path under the root. -/
theorem safe_join_sandbox_amended :
    safe_join "/out" "a/b.txt" = Except.ok "/out/a/b.txt"
    ∧ strStarts "/out/" "/out/a/b.txt" = true
    ∧ safe_join "/out" "../../etc/passwd"
        = Except.error "Unsafe path refused: ../../etc/passwd"
    ∧ safe_join "/out" "../out2/x" = Except.error "Unsafe path refused: ../out2/x"
    ∧ absNorm (pathJoin "/out" "../out2/x") = "/out2/x"
    ∧ safe_join "/out" "/etc/passwd" = Except.ok "/out/etc/passwd"
    ∧ strStarts "/out/" "/out/etc/passwd" = true :=
  ⟨rfl, rfl, rfl, rfl, rfl, rfl, rfl⟩

/-- Claim C2, counterexample: on a job already in the terminal succeeded
state with progress one hundred, a further progress update overwrites the
progress field (the callback guards only the status field), so the claim
that progress is left unchanged fails. -/
theorem progress_terminal_overwrite_cex :
    (progressUpdate
      { status := "succeeded", progress := 100, message := "Complete",
        logs := [], artifact := some "/a.zip" } 5 "s" "m" "t").progress = 5
    ∧ ¬ (progressUpdate
      { status := "succeeded", progress := 100, message := "Complete",
        logs := [], artifact := some "/a.zip" } 5 "s" "m" "t").progress = 100 := by
  constructor
  · rfl
  · decide

/-- Claim C2 as amended: once a job is terminal, a further progress
update leaves the status and the artifact unchanged and appends exactly
one log entry, but it does overwrite the progress field with the clamped
percent (and the message field with the given message). -/
theorem progress_terminal_amended (j : Job) (pct : Int) (st m ts : String)
    (h : j.status = "succeeded" ∨ j.status = "failed") :
    (progressUpdate j pct st m ts).status = j.status
    ∧ (progressUpdate j pct st m ts).artifact = j.artifact
    ∧ (progressUpdate j pct st m ts).logs = j.logs ++ [⟨pyClamp pct, st, m, ts⟩]
    ∧ (progressUpdate j pct st m ts).progress = pyClamp pct := by
  refine ⟨?_, rfl, rfl, rfl⟩
  unfold progressUpdate
  simp [h]

/-- Witness for the amended claim C2 at a concrete terminal job. -/
theorem progress_terminal_amended_witness :
    (progressUpdate
        { status := "succeeded", progress := 100, message := "x",
          logs := [], artifact := none } 7 "s" "m" "t").status = "succeeded"
    ∧ (progressUpdate
        { status := "succeeded", progress := 100, message := "x",
          logs := [], artifact := none } 7 "s" "m" "t").artifact = none
    ∧ (progressUpdate
        { status := "succeeded", progress := 100, message := "x",
          logs := [], artifact := none } 7 "s" "m" "t").logs
        = [] ++ [⟨pyClamp 7, "s", "m", "t"⟩]
    ∧ (progressUpdate
        { status := "succeeded", progress := 100, message := "x",
          logs := [], artifact := none } 7 "s" "m" "t").progress = pyClamp 7 :=
  progress_terminal_amended
    { status := "succeeded", progress := 100, message := "x",
      logs := [], artifact := none } 7 "s" "m" "t" (Or.inl rfl)

/-- Claim C3: on text holding one well-formed block for
unit-tests-Foo.java and one for scripts-evil.sh, the materializer writes
exactly the unit-tests file, returns count one, and reports no error (the
disallowed block is discarded silently). -/
theorem materialize_allowlist_single_file :
    materialize textC3 "/out" ALLOWED_ROOTS []
      = ([("/out/unit-tests/Foo.java", "int x;\n")], Except.ok 1) := by rfl

/-- Claim C5: whenever run_crewai_generation returns normally, the
returned file count is strictly positive: a zero count is turned into an
error before returning. -/
theorem run_crewai_generation_pos_count (provider : String) (keySet : Bool)
    (crewRun : Except String String) (outDir : String) (fs : Fs) (n : Nat)
    (h : (run_crewai_generation provider keySet crewRun outDir fs).2 = Except.ok n) :
    0 < n := by
  unfold run_crewai_generation at h
  split at h
  · simp at h
  · split at h
    · simp at h
    · split at h
      · simp at h
      · dsimp only at h
        split at h
        · simp at h
        · split at h
          · simp at h
          · rename_i hw
            simp only [Except.ok.injEq] at h
            omega

/-- Witness for claim C5: a run with the openai provider, a credential
and a crew outcome holding one valid block returns count one. -/
theorem run_crewai_generation_pos_count_witness : 0 < 1 :=
  run_crewai_generation_pos_count "openai" true (Except.ok textC3) "/out" [] 1 (by rfl)

/-- Claim C6: on text holding two blocks for the same path, the final
file holds the content of the block processed last, and re-running the
materializer on the identical text over the resulting tree returns the
identical tree (idempotent overwrite). -/
theorem materialize_last_write_wins_idempotent :
    materialize textC6 "/out" ALLOWED_ROOTS []
      = ([("/out/unit-tests/A.txt", "two\n")], Except.ok 2)
    ∧ materialize textC6 "/out" ALLOWED_ROOTS [("/out/unit-tests/A.txt", "two\n")]
      = ([("/out/unit-tests/A.txt", "two\n")], Except.ok 2)
    ∧ clean_body "two" = "two\n" :=
  ⟨rfl, rfl, rfl⟩

/-- Claim C8: the normalization at job creation and the radio-semantics
derivation inside the pipeline agree on every flag combination, exactly
one mode is enabled, unit wins whenever both or neither are requested,
and the pipeline derivation is the identity on already-normalized
flags. -/
theorem mode_normalization_agreement (u b : Bool) :
    buildModeNormalize u b = radioModes u b
    ∧ (buildModeNormalize u b).1 ≠ (buildModeNormalize u b).2
    ∧ buildModeNormalize u u = (true, false)
    ∧ radioModes (buildModeNormalize u b).1 (buildModeNormalize u b).2
        = buildModeNormalize u b := by
  cases u <;> cases b <;> decide

/-- Claim C9: archiving a directory with the files a-b.txt and c.txt
produces exactly the entry names a-slash-b.txt and c.txt, relative to the
source directory with no leading source segment. -/
theorem zip_dir_relative_entry_names (x y : String) :
    zip_dir_entries (treeC9 x y) = ["c.txt", "a/b.txt"]
    ∧ ∀ s : String, s ∈ zip_dir_entries (treeC9 x y) ↔ (s = "a/b.txt" ∨ s = "c.txt") := by
  refine ⟨rfl, fun s => ?_⟩
  rw [show zip_dir_entries (treeC9 x y) = ["c.txt", "a/b.txt"] from rfl]
  simp [List.mem_cons, or_comm]

/-- Every java file reported from the files of one listing lies directly
in that directory and carries the java extension. -/
theorem mem_discoverHere {base f : String} {t : DirTree}
    (h : f ∈ discoverHere base t) :
    ∃ n, f = pathJoin base n ∧ strEnds ".java" n = true := by
  induction t with
  | nil => simp [discoverHere] at h
  | fcons n c rest ih =>
    rw [discoverHere] at h
    rcases List.mem_append.1 h with h1 | h2
    · by_cases he : strEnds ".java" n
      · rw [if_pos he] at h1
        simp at h1
        exact ⟨n, h1, he⟩
      · rw [if_neg he] at h1
        simp at h1
    · exact ih h2
  | dcons n c rest ihc ihr =>
    rw [discoverHere] at h
    exact ihr h

/-- Every java file reported for one directory comes from a directory
that passes the skip test. -/
theorem mem_discoverDirFiles {base f : String} {t : DirTree}
    (h : f ∈ discoverDirFiles base t) :
    skipDir base = false ∧ ∃ n, f = pathJoin base n ∧ strEnds ".java" n = true := by
  unfold discoverDirFiles at h
  by_cases hs : skipDir base
  · rw [if_pos hs] at h
    simp at h
  · rw [if_neg hs] at h
    exact ⟨by simpa using hs, mem_discoverHere h⟩

/-- Every java file reported from the subdirectory walk comes from a
directory that passes the skip test. -/
theorem mem_discoverRec {base f : String} {t : DirTree}
    (h : f ∈ discoverRec base t) :
    ∃ d n, f = pathJoin d n ∧ skipDir d = false ∧ strEnds ".java" n = true := by
  induction t generalizing base with
  | nil => simp [discoverRec] at h
  | fcons n c rest ih =>
    rw [discoverRec] at h
    exact ih h
  | dcons n c rest ihc ihr =>
    rw [discoverRec] at h
    rcases List.mem_append.1 h with h1 | h2
    · rcases List.mem_append.1 h1 with h11 | h12
      · obtain ⟨hskip, nn, hf, he⟩ := mem_discoverDirFiles h11
        exact ⟨pathJoin base n, nn, hf, hskip, he⟩
      · exact ihc h12
    · exact ihr h2

/-- Claim C10: discover_java_files never returns a java file whose
directory fails the substring skip test — every returned file is a java
file sitting directly in a directory whose lowercased absolute path holds
none of the skip substrings (and since the path of an ancestor is a
segment of the path of the directory itself, no ancestor may hold one
either); because the test is a plain substring test, java files under
unrelated directories such as layout or about are excluded as well. -/
theorem discover_java_skip_substring :
    (∀ (root : String) (t : DirTree) (f : String),
        f ∈ discover_java_files root t →
        ∃ d n, f = pathJoin d n ∧ skipDir d = false ∧ strEnds ".java" n = true)
    ∧ discover_java_files "/repo" treeLayout = []
    ∧ discover_java_files "/repo" treeAbout = []
    ∧ skipDir "/repo/layout" = true
    ∧ skipDir "/repo/about" = true := by
  refine ⟨?_, rfl, rfl, rfl, rfl⟩
  intro root t f h
  rcases List.mem_append.1 h with h1 | h2
  · obtain ⟨hskip, n, hf, he⟩ := mem_discoverDirFiles h1
    exact ⟨root, n, hf, hskip, he⟩
  · exact mem_discoverRec h2

/-- Witness for claim C10: the java file in the clean src directory is
returned and satisfies the stated shape. -/
theorem discover_java_skip_substring_witness :
    ∃ d n, "/repo/src/A.java" = pathJoin d n ∧ skipDir d = false
      ∧ strEnds ".java" n = true :=
  discover_java_skip_substring.1 "/repo" treeSrc "/repo/src/A.java" (by decide)

/-- Without a credential the generation stage always fails: the key test
inside run_crewai_generation raises before any CrewAI work, whatever the
provider, and the file system is untouched. -/
theorem genStage_no_key (opts : BuildOpts) (w : ExtWorld) (outRoot : String)
    (fs : Fs) (hk : w.keySet = false) :
    ∃ e, genStage opts w outRoot fs = (fs, Except.error e) := by
  unfold genStage run_crewai_generation
  rw [hk]
  by_cases hp : pyLower (providerArg opts) ≠ "openai"
  · exact ⟨"Unsupported provider " ++ providerArg opts ++ ". Only openai is supported.",
      by simp [hp]⟩
  · exact ⟨"OPENAI_API_KEY not set; cannot run CrewAI with OpenAI provider.",
      by simp [hp]⟩

/-- With a credential present, a failing generation stage aborts the
pipeline: the error propagates, no further write happens, and the trace
stops at the generation checkpoint. -/
theorem run_pipeline_required_failure
    (opts : BuildOpts) (w : ExtWorld) (baseDir : String) (fs0 : Fs) (e : String)
    (hc : w.cloneOk = true) (hj : w.javaFiles.isEmpty = false) (hk : w.keySet = true)
    (hg : (genStage opts w (outRootOf baseDir opts.jobId) fs0).2 = Except.error e) :
    run_pipeline opts w baseDir fs0
      = (((genStage opts w (outRootOf baseDir opts.jobId) fs0).1, Except.error e),
         [(5, "Fetching repository"), (25, "Scanning Java sources"),
          (55, "CrewAI generation")]) := by
  unfold run_pipeline
  rw [hc, hj]
  simp only [Bool.false_eq_true, if_false, reduceIte]
  rw [hg, hk]
  simp

/-- Without a credential, the pipeline survives the generation failure:
the NOTICE file is recorded, the fallback scaffold runs, and packaging
produces the archive; the full checkpoint trace is reported. -/
theorem run_pipeline_fallback
    (opts : BuildOpts) (w : ExtWorld) (baseDir : String) (fs0 : Fs)
    (hc : w.cloneOk = true) (hj : w.javaFiles.isEmpty = false) (hk : w.keySet = false) :
    ∃ e,
      run_pipeline opts w baseDir fs0
      = ((fsWrite
            (scaffold
              (fsWrite fs0 (pathJoin (outRootOf baseDir opts.jobId) "NOTICE.txt")
                ("CrewAI not available or failed; using fallback scaffold.\n" ++ e))
              (outRootOf baseDir opts.jobId)
              (if (!(opts.generateUnit && !opts.generateBdd
                      || opts.generateBdd && !opts.generateUnit)) = true then true
                else opts.generateUnit && !opts.generateBdd)
              (opts.generateBdd && !opts.generateUnit) w.summaries)
            (pathJoin (pathJoin baseDir "artifacts") (opts.jobId ++ "-tests.zip"))
            "PK-archive",
          Except.ok (pathJoin (pathJoin baseDir "artifacts") (opts.jobId ++ "-tests.zip"))),
         [(5, "Fetching repository"), (25, "Scanning Java sources"),
          (55, "CrewAI generation"), (85, "Packaging"), (100, "Complete")]) := by
  obtain ⟨e, hge⟩ := genStage_no_key opts w (outRootOf baseDir opts.jobId) fs0 hk
  refine ⟨e, ?_⟩
  unfold run_pipeline
  rw [hc, hj]
  simp only [Bool.false_eq_true, if_false, reduceIte]
  rw [hge, hk]
  simp [packStage]

/-- Claim C4: with a generator credential present, any generation-stage
failure propagates — the job ends failed, no artifact is recorded, and
the file system is exactly what the failing generation stage left (no
fallback scaffold, no archive); without a credential the generation
stage necessarily fails, the failure is recorded in the NOTICE file, and
the pipeline continues through the fallback scaffold to an archive and a
succeeded job. -/
theorem pipeline_required_vs_fallback
    (opts : BuildOpts) (baseDir ts : String) (fs0 : Fs)
    (jf : String) (jfs : List String) (sums : List JSummary)
    (crew1 crew2 : Except String String) (e : String)
    (hg : (genStage opts ⟨true, jf :: jfs, sums, true, crew1⟩
            (outRootOf baseDir opts.jobId) fs0).2 = Except.error e) :
    ((runJob opts ⟨true, jf :: jfs, sums, true, crew1⟩ baseDir ts fs0).1.status = "failed"
      ∧ (runJob opts ⟨true, jf :: jfs, sums, true, crew1⟩ baseDir ts fs0).1.artifact = none
      ∧ (runJob opts ⟨true, jf :: jfs, sums, true, crew1⟩ baseDir ts fs0).2
          = (genStage opts ⟨true, jf :: jfs, sums, true, crew1⟩
              (outRootOf baseDir opts.jobId) fs0).1)
    ∧ ((runJob opts ⟨true, jf :: jfs, sums, false, crew2⟩ baseDir ts fs0).1.status
          = "succeeded"
      ∧ ((runJob opts ⟨true, jf :: jfs, sums, false, crew2⟩ baseDir ts fs0).1.artifact).isSome
          = true
      ∧ (fsGet (runJob opts ⟨true, jf :: jfs, sums, false, crew2⟩ baseDir ts fs0).2
          (pathJoin (outRootOf baseDir opts.jobId) "NOTICE.txt")).isSome = true) := by
  constructor
  · have hpipe := run_pipeline_required_failure opts
      ⟨true, jf :: jfs, sums, true, crew1⟩ baseDir fs0 e rfl (by simp) rfl hg
    unfold runJob
    rw [hpipe]
    refine ⟨rfl, ?_, rfl⟩
    have := foldl_progressUpdate_artifact
      [(5, "Fetching repository"), (25, "Scanning Java sources"), (55, "CrewAI generation")]
      { status := "running", progress := 0, message := "Queued", logs := [], artifact := none }
      ts
    simpa using this
  · obtain ⟨e2, hpipe⟩ := run_pipeline_fallback opts
      ⟨true, jf :: jfs, sums, false, crew2⟩ baseDir fs0 rfl (by simp) rfl
    unfold runJob
    rw [hpipe]
    dsimp only
    have hzip := fsGet_fsWrite_self
      (scaffold
        (fsWrite fs0 (pathJoin (outRootOf baseDir opts.jobId) "NOTICE.txt")
          ("CrewAI not available or failed; using fallback scaffold.\n" ++ e2))
        (outRootOf baseDir opts.jobId)
        (if (!(opts.generateUnit && !opts.generateBdd
                || opts.generateBdd && !opts.generateUnit)) = true then true
          else opts.generateUnit && !opts.generateBdd)
        (opts.generateBdd && !opts.generateUnit) sums)
      (pathJoin (pathJoin baseDir "artifacts") (opts.jobId ++ "-tests.zip"))
      "PK-archive"
    refine ⟨?_, ?_, ?_⟩
    · rw [hzip]
      rfl
    · rw [hzip]
      rfl
    · rw [hzip]
      show (fsGet (fsWrite _ _ _) _).isSome = true
      apply fsWrite_keeps
      apply scaffold_keeps
      rw [fsGet_fsWrite_self]
      rfl

/-- Witness for claim C4 at concrete oracles: a credential with a failing
crew run on one side, no credential on the other. -/
theorem pipeline_required_vs_fallback_witness :
    ((runJob optsW ⟨true, ["A.java"], [], true, Except.error "boom"⟩ "/b" "T" []).1.status
        = "failed"
      ∧ (runJob optsW ⟨true, ["A.java"], [], true, Except.error "boom"⟩ "/b" "T" []).1.artifact
        = none
      ∧ (runJob optsW ⟨true, ["A.java"], [], true, Except.error "boom"⟩ "/b" "T" []).2
          = (genStage optsW ⟨true, ["A.java"], [], true, Except.error "boom"⟩
              (outRootOf "/b" optsW.jobId) []).1)
    ∧ ((runJob optsW ⟨true, ["A.java"], [], false, Except.error "nodeps"⟩ "/b" "T" []).1.status
        = "succeeded"
      ∧ ((runJob optsW ⟨true, ["A.java"], [], false,
            Except.error "nodeps"⟩ "/b" "T" []).1.artifact).isSome = true
      ∧ (fsGet (runJob optsW ⟨true, ["A.java"], [], false, Except.error "nodeps"⟩ "/b" "T" []).2
          (pathJoin (outRootOf "/b" optsW.jobId) "NOTICE.txt")).isSome = true) :=
  pipeline_required_vs_fallback optsW "/b" "T" [] "A.java" [] []
    (Except.error "boom") (Except.error "nodeps") "boom" (by rfl)

/-- When the generation stage returns normally, the pipeline packages and
succeeds, reporting the full checkpoint trace (whether the scaffold branch
ran or not). -/
theorem run_pipeline_gen_ok
    (opts : BuildOpts) (w : ExtWorld) (baseDir : String) (fs0 : Fs) (count : Nat)
    (hc : w.cloneOk = true) (hj : w.javaFiles.isEmpty = false)
    (hg : (genStage opts w (outRootOf baseDir opts.jobId) fs0).2 = Except.ok count) :
    ∃ X, run_pipeline opts w baseDir fs0
      = ((fsWrite X (pathJoin (pathJoin baseDir "artifacts") (opts.jobId ++ "-tests.zip"))
            "PK-archive",
          Except.ok (pathJoin (pathJoin baseDir "artifacts") (opts.jobId ++ "-tests.zip"))),
         [(5, "Fetching repository"), (25, "Scanning Java sources"),
          (55, "CrewAI generation"), (85, "Packaging"), (100, "Complete")]) := by
  unfold run_pipeline
  rw [hc, hj]
  simp only [Bool.false_eq_true, if_false, reduceIte]
  rw [hg]
  by_cases hcount : 0 < count
  · refine ⟨(genStage opts w (outRootOf baseDir opts.jobId) fs0).1, ?_⟩
    simp [hcount, packStage]
  · refine ⟨scaffold (genStage opts w (outRootOf baseDir opts.jobId) fs0).1
      (outRootOf baseDir opts.jobId)
      (if (!(opts.generateUnit && !opts.generateBdd
              || opts.generateBdd && !opts.generateUnit)) = true then true
        else opts.generateUnit && !opts.generateBdd)
      (opts.generateBdd && !opts.generateUnit) w.summaries, ?_⟩
    simp [hcount, packStage]

/-- Claim C7: the registry callback clamps every percent into the range
zero to one hundred and appends exactly one log entry per invocation, and
over any run of the pipeline (any oracle outcome) the sequence of
progress values observed in the job log is non-decreasing; the terminal
transition appends the final value (one hundred on success, the frozen
current value on failure) and nothing mutates the record afterwards. -/
theorem progress_clamp_append_monotone :
    (∀ (j : Job) (pct : Int) (st m ts : String),
        (progressUpdate j pct st m ts).progress = pyClamp pct
        ∧ 0 ≤ pyClamp pct ∧ pyClamp pct ≤ 100
        ∧ (progressUpdate j pct st m ts).logs = j.logs ++ [⟨pyClamp pct, st, m, ts⟩])
    ∧ (∀ (opts : BuildOpts) (w : ExtWorld) (baseDir ts : String) (fs : Fs),
        List.Chain' (fun a b : Int => a ≤ b)
          (((runJob opts w baseDir ts fs).1.logs).map LogEntry.progress)) := by
  constructor
  · intro j pct st m ts
    refine ⟨rfl, ?_, ?_, rfl⟩
    · unfold pyClamp; omega
    · unfold pyClamp; omega
  · intro opts w baseDir ts fs
    by_cases hc : w.cloneOk = true
    · by_cases hj : w.javaFiles.isEmpty = true
      · -- scan failure
        have hpipe : run_pipeline opts w baseDir fs
            = ((fs, Except.error "No Java files found in the repository."),
               [(5, "Fetching repository"), (25, "Scanning Java sources")]) := by
          unfold run_pipeline
          rw [hc, hj]
          simp
        unfold runJob
        rw [hpipe]
        dsimp only
        rw [List.map_append, foldl_progressUpdate_logsP]
        simp only [List.foldl_cons, List.foldl_nil, progressUpdate_progress,
          List.map_cons, List.map_nil]
        norm_num [pyClamp, List.chain'_cons]
      · have hj' : w.javaFiles.isEmpty = false := by
          revert hj; cases w.javaFiles.isEmpty <;> simp
        rcases hg : (genStage opts w (outRootOf baseDir opts.jobId) fs).2 with e | count
        · by_cases hk : w.keySet = true
          · -- required generation failure
            have hpipe := run_pipeline_required_failure opts w baseDir fs e hc hj' hk hg
            unfold runJob
            rw [hpipe]
            dsimp only
            rw [List.map_append, foldl_progressUpdate_logsP]
            simp only [List.foldl_cons, List.foldl_nil, progressUpdate_progress,
              List.map_cons, List.map_nil]
            norm_num [pyClamp, List.chain'_cons]
          · -- fallback
            have hk' : w.keySet = false := by
              revert hk; cases w.keySet <;> simp
            obtain ⟨e2, hpipe⟩ := run_pipeline_fallback opts w baseDir fs hc hj' hk'
            unfold runJob
            rw [hpipe]
            dsimp only
            rw [fsGet_fsWrite_self]
            simp only [Option.isSome_some, if_true, reduceIte]
            rw [List.map_append, foldl_progressUpdate_logsP]
            simp only [List.map_cons, List.map_nil]
            norm_num [pyClamp, List.chain'_cons]
        · -- generation ok
          obtain ⟨X, hpipe⟩ := run_pipeline_gen_ok opts w baseDir fs count hc hj' hg
          unfold runJob
          rw [hpipe]
          dsimp only
          rw [fsGet_fsWrite_self]
          simp only [Option.isSome_some, if_true, reduceIte]
          rw [List.map_append, foldl_progressUpdate_logsP]
          simp only [List.map_cons, List.map_nil]
          norm_num [pyClamp, List.chain'_cons]
    · -- clone failure
      have hc' : w.cloneOk = false := by
        revert hc; cases w.cloneOk <;> simp
      have hpipe : run_pipeline opts w baseDir fs
          = ((fs, Except.error "FetchError"), [(5, "Fetching repository")]) := by
        unfold run_pipeline
        rw [hc']
        simp
      unfold runJob
      rw [hpipe]
      dsimp only
      rw [List.map_append, foldl_progressUpdate_logsP]
      simp only [List.foldl_cons, List.foldl_nil, progressUpdate_progress,
        List.map_cons, List.map_nil]
      norm_num [pyClamp, List.chain'_cons]
